import Mathlib

/-!
Verification of the resource-ledger, acquisition, stage-orchestration and
boot-supervision logic of `zfs-fedora-installer` against its specification.
The Python modules `installfedoraonzfs/__init__.py`, `installfedoraonzfs/vm.py`
and `installfedoraonzfs/cmd.py` are shallowly embedded below: pure string and
list manipulation is translated directly, and effectful code (external
commands, the filesystem, sleeps) is modelled by explicit environments that
record which probe/command succeeds, together with event traces listing the
commands the code would have executed, in order.
-/

namespace ZfsInstaller

/-! ## Resource ledger: class `Undoer` (`installfedoraonzfs/__init__.py`)

`Undoer` keeps `self.actions`, a list of `[typ, o]` pairs appended by the
trackers `to_un_losetup`, `to_luks_close`, `to_export`, `to_rmdir`,
`to_unmount`, `to_rmrf`.  `undo()` walks `reversed(list(enumerate(
self.actions[:])))`, executes the action for each entry, and pops the entry
by its index only after the action's branch completed without raising. -/

/-- The `typ` tag a `Tracker` writes into `Undoer.actions`. -/
inductive UndoKind
  | unmount
  | rmrf
  | rmdir
  | pool_export
  | luks_close
  | un_losetup
  deriving DecidableEq, Repr

/-- One entry of `Undoer.actions`: the tag and the handle `o`. -/
abbrev UndoEntry := UndoKind × String

/-- One externally visible step `undo()` takes: the cleanup command for an
entry, or the `time.sleep(1)` after a loop-device detach. -/
inductive UndoEvent
  | umount_ev (h : String)
  | rmtree_ev (h : String)
  | rmdir_ev (h : String)
  | zpool_export_ev (h : String)
  | luks_close_ev (h : String)
  | losetup_detach_ev (h : String)
  | sleep_ev
  deriving DecidableEq, Repr

/-- Python's `needle in haystack` on strings, as character lists: some
contiguous run of `s` equals `pat`. -/
def hasInfix (pat : List Char) : List Char → Bool
  | [] => pat.isEmpty
  | c :: rest => pat.isPrefixOf (c :: rest) || hasInfix pat rest

/-- `"No such device or address" in output`: the test `undo()` applies to a
failed `losetup -d` before deciding the failure is ignorable. -/
def losetup_missing_device (output : String) : Bool :=
  hasInfix "No such device or address".data output.data

/-- Outcomes the external world hands `undo()`: whether the cleanup command
for the entry at original index `n` succeeds, and, for `un_losetup` entries,
the `(output, exitcode)` pair `get_output_exitcode` returns for
`losetup -d`. -/
structure UndoEnv where
  ok : Nat → Bool
  losetup_result : Nat → String × Int

/-- Execute the `undo()` branch for a single entry at original index `n`:
the events it emits and whether control continues to the `pop` (`true`) or
an exception propagates (`false`).  Mirrors the `if typ == ...` chain of
`Undoer.undo`; for `un_losetup`, a non-zero exit whose output names a
missing device is logged and ignored, any other non-zero exit raises
`CalledProcessError`, and `time.sleep(1)` runs after a non-raising detach. -/
def runUndoStep (env : UndoEnv) (n : Nat) (e : UndoEntry) : List UndoEvent × Bool :=
  match e.1 with
  | .unmount => ([.umount_ev e.2], env.ok n)
  | .rmrf => ([.rmtree_ev e.2], env.ok n)
  | .rmdir => ([.rmdir_ev e.2], env.ok n)
  | .pool_export => ([.zpool_export_ev e.2], env.ok n)
  | .luks_close => ([.luks_close_ev e.2], env.ok n)
  | .un_losetup =>
    let r := env.losetup_result n
    if r.2 ≠ 0 ∧ losetup_missing_device r.1 = false then
      ([.losetup_detach_ev e.2], false)
    else
      ([.losetup_detach_ev e.2, .sleep_ev], true)

/-- The observable result of one `undo()` call. -/
structure UndoRun where
  trace : List UndoEvent
  attempted : List (Nat × UndoEntry)
  remaining : List UndoEntry
  ok : Bool
  deriving DecidableEq, Repr

/-- Process the reversed, enumerated snapshot of `Undoer.actions` exactly as
the `for n, (typ, o) in reversed(list(enumerate(self.actions[:])))` loop
does: run the entry's action, and on success pop it (so it is absent from
`remaining`) and continue; on an exception stop, leaving the current entry
and every not-yet-visited one in the ledger in their original order. -/
def undoRev (env : UndoEnv) : List (Nat × UndoEntry) → UndoRun
  | [] => ⟨[], [], [], true⟩
  | (n, e) :: rest =>
    let s := runUndoStep env n e
    if s.2 then
      let r := undoRev env rest
      ⟨s.1 ++ r.trace, (n, e) :: r.attempted, r.remaining, r.ok⟩
    else
      ⟨s.1, [(n, e)], (((n, e) :: rest).reverse).map Prod.snd, false⟩

/-- `Undoer.undo()` on a ledger whose `actions` list is `actions`. -/
def Undoer.undo (env : UndoEnv) (actions : List UndoEntry) : UndoRun :=
  undoRev env (actions.enum.reverse)

/-- On a run of `undoRev` that completes, every entry was processed and the
ledger is empty afterwards. -/
theorem undoRev_ok_spec (env : UndoEnv) :
    ∀ L : List (Nat × UndoEntry), (undoRev env L).ok = true →
      (undoRev env L).attempted = L ∧ (undoRev env L).remaining = [] := by
  intro L
  induction L with
  | nil => intro _; simp [undoRev]
  | cons p rest ih =>
    intro hok
    by_cases hs : (runUndoStep env p.1 p.2).2 = true
    · have hr : (undoRev env rest).ok = true := by
        simpa [undoRev, hs] using hok
      obtain ⟨ha, hrem⟩ := ih hr
      constructor
      · simp [undoRev, hs, ha]
      · simp [undoRev, hs, hrem]
    · simp only [Bool.not_eq_true] at hs
      simp [undoRev, hs] at hok

/-- On a run of `undoRev` that stops with an exception, the entries up to and
including the failing one (in processing order) were attempted, the failing
entry's action raised, every earlier attempted action succeeded, and the
ledger retains the failing entry and everything after it in processing
order (= everything up to it in insertion order). -/
theorem undoRev_fail_spec (env : UndoEnv) :
    ∀ L : List (Nat × UndoEntry), (undoRev env L).ok = false →
      ∃ i, i < L.length ∧
        (undoRev env L).attempted = L.take (i + 1) ∧
        (undoRev env L).remaining = ((L.drop i).reverse).map Prod.snd ∧
        (∀ n e, L.get? i = some (n, e) → (runUndoStep env n e).2 = false) ∧
        (∀ j, j < i → ∀ n e, L.get? j = some (n, e) →
          (runUndoStep env n e).2 = true) := by
  intro L
  induction L with
  | nil => intro hk; simp [undoRev] at hk
  | cons p rest ih =>
    intro hok
    by_cases hs : (runUndoStep env p.1 p.2).2 = true
    · have hr : (undoRev env rest).ok = false := by
        simpa [undoRev, hs] using hok
      obtain ⟨i, hi, ha, hrem, hfail, hpre⟩ := ih hr
      refine ⟨i + 1, by simpa using Nat.succ_lt_succ hi, ?_, ?_, ?_, ?_⟩
      · simp [undoRev, hs, ha]
      · simp [undoRev, hs, hrem]
      · intro n e hg
        exact hfail n e (by simpa using hg)
      · intro j hj n e hg
        cases j with
        | zero =>
          simp only [List.get?_cons_zero, Option.some_inj] at hg
          subst hg
          exact hs
        | succ j' =>
          exact hpre j' (Nat.lt_of_succ_lt_succ hj) n e (by simpa using hg)
    · simp only [Bool.not_eq_true] at hs
      refine ⟨0, by simp, ?_, ?_, ?_, ?_⟩
      · simp [undoRev, hs]
      · simp [undoRev, hs]
      · intro n e hg
        simp only [List.get?_cons_zero, Option.some_inj] at hg
        subst hg
        exact hs
      · intro j hj
        omega

/-- The event trace of `undoRev` is the concatenation of the events of the
attempted entries, in processing order. -/
theorem undoRev_trace_spec (env : UndoEnv) :
    ∀ L : List (Nat × UndoEntry),
      (undoRev env L).trace =
        (undoRev env L).attempted.flatMap (fun p => (runUndoStep env p.1 p.2).1) := by
  intro L
  induction L with
  | nil => simp [undoRev]
  | cons p rest ih =>
    by_cases hs : (runUndoStep env p.1 p.2).2 = true
    · simp [undoRev, hs, ih]
    · simp only [Bool.not_eq_true] at hs
      simp [undoRev, hs]

/-- **C1**: `Undoer.undo` executes the registered cleanup action of each
ledger entry in exact reverse insertion order (it walks the reversed
enumeration `actions.enum.reverse` of the ledger), the event trace is the
concatenation of the attempted entries' actions in that order, the attempted
entries always form a prefix of the reversed ledger (so no entry is ever
undone twice), a completed undo leaves the ledger empty, and an undo that
raises at the `i`-th processed entry leaves exactly the failing entry and the
not-yet-processed ones in the ledger, every earlier processed entry having
been removed after its action completed. -/
theorem undoer_undo_lifo :
    ∀ (env : UndoEnv) (actions : List UndoEntry),
      (Undoer.undo env actions).attempted <+: actions.enum.reverse ∧
      (Undoer.undo env actions).trace =
        (Undoer.undo env actions).attempted.flatMap
          (fun p => (runUndoStep env p.1 p.2).1) ∧
      ((Undoer.undo env actions).ok = true →
        (Undoer.undo env actions).attempted = actions.enum.reverse ∧
        (Undoer.undo env actions).remaining = []) ∧
      ((Undoer.undo env actions).ok = false →
        ∃ i, i < (actions.enum.reverse).length ∧
          (Undoer.undo env actions).attempted = (actions.enum.reverse).take (i + 1) ∧
          (Undoer.undo env actions).remaining =
            (((actions.enum.reverse).drop i).reverse).map Prod.snd ∧
          (∀ n e, (actions.enum.reverse).get? i = some (n, e) →
            (runUndoStep env n e).2 = false) ∧
          (∀ j, j < i → ∀ n e, (actions.enum.reverse).get? j = some (n, e) →
            (runUndoStep env n e).2 = true)) := by
  intro env actions
  refine ⟨?_, undoRev_trace_spec env _, undoRev_ok_spec env _, undoRev_fail_spec env _⟩
  by_cases hok : (Undoer.undo env actions).ok = true
  · exact (undoRev_ok_spec env _ hok).1 ▸ List.prefix_refl _
  · simp only [Bool.not_eq_true] at hok
    obtain ⟨i, _, ha, _⟩ := undoRev_fail_spec env _ hok
    exact ha ▸ List.take_prefix _ _

/-- The environment in which every cleanup action succeeds. -/
def undoEnvAllOk : UndoEnv := ⟨fun _ => true, fun _ => ("", 0)⟩

/-- **C2, counterexample**: on the ledger appended in order
`[mount A, mount B, loop-attach C]`, `undo()` does not invoke
`unmount(B)`, `unmount(A)`, `loop-detach(C)` in that order — the claimed
order is not the reverse of the append order, which the loop actually
follows. -/
theorem undoer_undo_order_claim_counterexample :
    ((Undoer.undo undoEnvAllOk
        [(.unmount, "A"), (.unmount, "B"), (.un_losetup, "C")]).trace.filter
      (fun ev => ev ≠ UndoEvent.sleep_ev)) ≠
      [.umount_ev "B", .umount_ev "A", .losetup_detach_ev "C"] := by
  decide

/-- **C2, amended**: appending `mount A`, `mount B`, `loop-attach C` and then
calling `undo()` invokes exactly `loop-detach(C)`, `unmount(B)`,
`unmount(A)` in that order (the exact reverse of the append order); the only
further event is the `time.sleep(1)` right after the detach. -/
theorem undoer_undo_mount_mount_losetup_order :
    (Undoer.undo undoEnvAllOk
        [(.unmount, "A"), (.unmount, "B"), (.un_losetup, "C")]).trace =
      [.losetup_detach_ev "C", .sleep_ev, .umount_ev "B", .umount_ev "A"] ∧
    ((Undoer.undo undoEnvAllOk
        [(.unmount, "A"), (.unmount, "B"), (.un_losetup, "C")]).trace.filter
      (fun ev => ev ≠ UndoEvent.sleep_ev)) =
      [.losetup_detach_ev "C", .umount_ev "B", .umount_ev "A"] := by
  decide

/-- **C7**: during undo of a loop-device attachment, a zero exit or a
non-zero exit whose output names a missing device lets undo continue
(sleeping once right after the detach attempt, before the next entry is
processed), while any other non-zero exit raises, stopping the undo with the
whole ledger intact. -/
theorem undoer_losetup_race_tolerance :
    ∀ (env : UndoEnv) (n : Nat) (h : String) (rest : List (Nat × UndoEntry)),
      (((env.losetup_result n).2 = 0 ∨
          losetup_missing_device (env.losetup_result n).1 = true) →
        undoRev env ((n, (.un_losetup, h)) :: rest) =
          ⟨.losetup_detach_ev h :: .sleep_ev :: (undoRev env rest).trace,
           (n, (.un_losetup, h)) :: (undoRev env rest).attempted,
           (undoRev env rest).remaining, (undoRev env rest).ok⟩) ∧
      ((env.losetup_result n).2 ≠ 0 →
        losetup_missing_device (env.losetup_result n).1 = false →
        undoRev env ((n, (.un_losetup, h)) :: rest) =
          ⟨[.losetup_detach_ev h], [(n, (.un_losetup, h))],
           (((n, (.un_losetup, h)) :: rest).reverse).map Prod.snd, false⟩) := by
  intro env n h rest
  constructor
  · intro hcont
    have hstep : runUndoStep env n (.un_losetup, h) =
        ([.losetup_detach_ev h, .sleep_ev], true) := by
      rcases hcont with h0 | hmiss
      · simp [runUndoStep, h0]
      · simp [runUndoStep, hmiss]
    simp [undoRev, hstep]
  · intro hnz hmiss
    have hstep : runUndoStep env n (.un_losetup, h) =
        ([.losetup_detach_ev h], false) := by
      simp [runUndoStep, hnz, hmiss]
    simp [undoRev, hstep]

/-- Sanity: "No such device or address" buried inside real `losetup -d`
output is recognised as ignorable, another error is not. -/
theorem losetup_missing_device_example :
    losetup_missing_device
        "losetup: /dev/loop3: detach failed: No such device or address" = true ∧
    losetup_missing_device
        "losetup: /dev/loop3: detach failed: Permission denied" = false := by
  decide

/-! ## Stage orchestrator: the stage loop of `install_fedora`
(`installfedoraonzfs/__init__.py`)

```
for stage in ["beginning", "deploy_zfs", ...]:
    if break_before == stage:
        raise BreakingBefore(stage)
    if short_circuit in (stage, None):
        locals()[stage]()
        short_circuit = None
```
-/

/-- The fixed stage order of `install_fedora`. -/
def stages : List String :=
  ["beginning", "deploy_zfs", "reload_chroot", "bootloader_install",
   "boot_to_test_non_hostonly", "boot_to_test_hostonly"]

/-- Result of the stage loop: either the loop iterated through every stage
(`completed`, with the names of the stage bodies that ran, in order), or
the `BreakingBefore` signal was raised before the named stage (again with
the bodies that had run by then). -/
inductive StageOutcome
  | completed (ran : List String)
  | breaking_before (stage : String) (ran : List String)
  deriving DecidableEq, Repr

/-- The stage loop of `install_fedora`: at each stage, `break_before ==
stage` is tested first and raises `BreakingBefore(stage)`; otherwise the
stage body runs when `short_circuit in (stage, None)`, after which
`short_circuit` is set to `None`; otherwise the stage is skipped. -/
def stage_loop (break_before : Option String) :
    Option String → List String → List String → StageOutcome
  | _, [], ran => .completed ran
  | short_circuit, stage :: rest, ran =>
    if break_before = some stage then .breaking_before stage ran
    else if short_circuit = some stage ∨ short_circuit = none then
      stage_loop break_before none rest (ran ++ [stage])
    else stage_loop break_before short_circuit rest ran

/-- Modelled from the amended claim: stages iterate in declared order;
`break_before` is checked first at every stage and raises even at a stage
that `short_circuit` would have skipped; otherwise exactly the stages from
the `short_circuit` stage on (all stages when it is `none`) run, in order,
until the loop ends or `break_before` matches. -/
def stage_loop_expected (break_before short_circuit : Option String) : StageOutcome :=
  let start := match short_circuit with
    | none => 0
    | some s => match stages.findIdx? (fun x => x = s) with
      | some i => i
      | none => stages.length
  match break_before with
  | some b =>
    match stages.findIdx? (fun x => x = b) with
    | some k => .breaking_before b ((stages.take k).drop start)
    | none => .completed (stages.drop start)
  | none => .completed (stages.drop start)

/-- The choices of `break_before` / `short_circuit` the orchestrator
accepts: nothing, or the name of one of the stages. -/
def stage_opts : List (Option String) := none :: stages.map some

/-- **C4, counterexample**: with `break_before = "beginning"` and
`short_circuit = "deploy_zfs"`, the claim says `beginning` is skipped
entirely — not run and *not broken-before* — and the remaining stages run;
the code instead checks `break_before` first and raises `BreakingBefore
("beginning")` with no stage having run. -/
theorem stage_loop_short_circuit_counterexample :
    stage_loop (some "beginning") (some "deploy_zfs") stages [] =
      .breaking_before "beginning" [] ∧
    stage_loop (some "beginning") (some "deploy_zfs") stages [] ≠
      .completed ["deploy_zfs", "reload_chroot", "bootloader_install",
        "boot_to_test_non_hostonly", "boot_to_test_hostonly"] := by
  decide

/-- **C4, amended**: for every choice of `break_before` and `short_circuit`
among the stage names (or none), the stage loop matches the amended
behaviour: stages execute in declared order; stages before the
`short_circuit` stage are skipped (not run), and from that stage on every
stage runs, except that `break_before` takes precedence — it is tested at
every stage in order, including skipped ones, and raises `BreakingBefore`
before the named stage's body would have run; once the `short_circuit`
stage is reached the skip condition is cleared. -/
theorem stage_loop_amended :
    (stage_opts.all fun bb => stage_opts.all fun sc =>
      stage_loop bb sc stages [] = stage_loop_expected bb sc) = true := by
  decide

/-! ## Passphrase typeability gate (`BootDriver.is_typeable` in
`installfedoraonzfs/vm.py`; the validation prelude of `install_fedora`) -/

/-- `BootDriver.is_typeable`: no character with an ordinal below the space
character (32) may appear. -/
def BootDriver.is_typeable (s : String) : Bool :=
  s.data.all (fun p => 32 ≤ p.toNat)

/-- The exception `install_fedora` raises for an untypeable secret. -/
inductive InstallErr
  | impossible_passphrase (what : String) (value : String)
  deriving DecidableEq, Repr

/-- The validation prelude of `install_fedora`: a truthy (non-empty)
`lukspassword` that is not typeable, and then a truthy `rootpassword` that
is not typeable, raise `ImpossiblePassphrase`.  These two tests are the
first statements of the function. -/
def install_fedora_gate (lukspassword : Option String) (rootpassword : String) :
    Option InstallErr :=
  if (lukspassword.getD "") ≠ "" ∧
      BootDriver.is_typeable (lukspassword.getD "") = false then
    some (.impossible_passphrase "LUKS passphrase" (lukspassword.getD ""))
  else if rootpassword ≠ "" ∧ BootDriver.is_typeable rootpassword = false then
    some (.impossible_passphrase "root password" rootpassword)
  else none

/-- `install_fedora` as seen from its prelude: the typeability gate runs
before everything else; `ops` stands for the block-device, filesystem and
stage operations of the body, which are reached only when the gate
passes. -/
def install_fedora_prelude (lukspassword : Option String) (rootpassword : String)
    (ops : List String) : Except InstallErr (List String) :=
  match install_fedora_gate lukspassword rootpassword with
  | some e => .error e
  | none => .ok ops

/-- **C8**: a supplied LUKS passphrase or root password holding a character
with ordinal below 32 makes `install_fedora` raise `ImpossiblePassphrase`
before any operation of the body is attempted (the prelude never reaches the
`.ok` carrying the body's operations); conversely `is_typeable` accepts a
string exactly when every character has ordinal 32 or above. -/
theorem impossible_passphrase_gate :
    ∀ (lukspassword : Option String) (rootpassword : String) (ops : List String),
      (((lukspassword.getD "").data.any (fun c => c.toNat < 32) = true ∨
          rootpassword.data.any (fun c => c.toNat < 32) = true) →
        (install_fedora_gate lukspassword rootpassword).isSome = true ∧
        ∀ res, install_fedora_prelude lukspassword rootpassword ops ≠ .ok res) ∧
      (∀ s : String, BootDriver.is_typeable s = true ↔ ∀ c ∈ s.data, 32 ≤ c.toNat) := by
  intro lp rp ops
  constructor
  · intro hbad
    have hgate : (install_fedora_gate lp rp).isSome = true := by
      have untypeable : ∀ s : String, s.data.any (fun c => c.toNat < 32) = true →
          s ≠ "" ∧ BootDriver.is_typeable s = false := by
        intro s hs
        obtain ⟨c, hc, hlt⟩ := List.any_eq_true.mp hs
        refine ⟨?_, ?_⟩
        · intro hemp
          subst hemp
          simp at hc
        · apply Bool.eq_false_iff.mpr
          intro htrue
          have hge := List.all_eq_true.mp htrue c hc
          simp only [decide_eq_true_eq] at hge hlt
          omega
      unfold install_fedora_gate
      rcases hbad with hl | hr
      · simp [untypeable _ hl]
      · by_cases hA : ((lp.getD "") ≠ "" ∧
            BootDriver.is_typeable (lp.getD "") = false)
        · simp [hA]
        · simp [hA, untypeable _ hr]
    refine ⟨hgate, ?_⟩
    intro res hok
    unfold install_fedora_prelude at hok
    rcases hg : install_fedora_gate lp rp with _ | e
    · rw [hg] at hgate; simp at hgate
    · rw [hg] at hok; simp at hok
  · intro s
    simp [BootDriver.is_typeable, List.all_eq_true]

/-- Sanity for the gate: a control character is rejected, printable text is
not. -/
theorem impossible_passphrase_gate_example :
    (install_fedora_gate (some "tab\there") "password").isSome = true ∧
    install_fedora_gate (some "correct horse") "password" = none := by
  decide

/-! ## Boot supervision: shutdown detection (`BootDriver.run` and
`boot_image_in_qemu`, `installfedoraonzfs/vm.py`)

`BootDriver.run` ends its console loop with `self.error` either an error
classified from the console lines or, failing a shutdown marker in the
captured output, `MachineNeverShutoff`.  `boot_image_in_qemu` then joins the
driver (collecting that error as `exception`) and waits for QEMU's exit
code, raising `QEMUDied` when `MachineNeverShutoff` coincides with a
non-zero exit, re-raising any other `exception`, raising
`CalledProcessError` on a non-zero exit, and returning normally
otherwise. -/

/-- The failure classes of the boot supervisor that reach its caller. -/
inductive VMErr
  | systemd_segfault
  | bad_pw
  | oomed
  | panicked
  | emergency
  | machine_never_shutoff
  | qemu_died (retcode : Int)
  | called_process_error (retcode : Int)
  deriving DecidableEq, Repr

/-- The two shutdown markers `BootDriver.run` accepts in the captured
console output. -/
def shutoff_marker_present (output : String) : Bool :=
  hasInfix "reboot: Power down".data output.data ||
  hasInfix "reboot: Restarting system".data output.data

/-- End of `BootDriver.run`: when the console loop set no error, a missing
shutdown marker in the captured output becomes `MachineNeverShutoff`. -/
def driver_final_error (loop_err : Option VMErr) (output : String) : Option VMErr :=
  match loop_err with
  | some e => some e
  | none =>
    if shutoff_marker_present output then none else some .machine_never_shutoff

/-- End of `boot_image_in_qemu`: `exception` is what `driver.join()` would
raise, `retcode` the emulator's exit code; `none` means a normal return. -/
def boot_outcome (exception : Option VMErr) (retcode : Int) : Option VMErr :=
  if exception = some .machine_never_shutoff ∧ retcode ≠ 0 then
    some (.qemu_died retcode)
  else
    match exception with
    | some e => some e
    | none => if retcode ≠ 0 then some (.called_process_error retcode) else none

/-- The supervisor's verdict for one non-interactive boot, from the error
the console loop classified, the captured output and the exit code. -/
def boot_supervisor (loop_err : Option VMErr) (output : String) (retcode : Int) :
    Option VMErr :=
  boot_outcome (driver_final_error loop_err output) retcode

/-- **C5**: the boot supervisor returns normally only when the emulator exit
code is zero AND the captured output holds a shutdown marker (and the loop
classified no failure); with exit code zero and no failure signature, a
missing marker is exactly the `MachineNeverShutoff` failure, and a present
marker is a normal return. -/
theorem boot_shutdown_detection :
    ∀ (loop_err : Option VMErr) (output : String) (retcode : Int),
      (boot_supervisor loop_err output retcode = none →
        retcode = 0 ∧ shutoff_marker_present output = true ∧ loop_err = none) ∧
      (retcode = 0 → loop_err = none → shutoff_marker_present output = false →
        boot_supervisor loop_err output retcode = some .machine_never_shutoff) ∧
      (retcode = 0 → loop_err = none → shutoff_marker_present output = true →
        boot_supervisor loop_err output retcode = none) := by
  intro loop_err output retcode
  refine ⟨?_, ?_, ?_⟩
  · intro hnone
    rcases loop_err with _ | e
    · by_cases hm : shutoff_marker_present output = true
      · refine ⟨?_, hm, rfl⟩
        by_contra hrc
        simp [boot_supervisor, driver_final_error, boot_outcome, hm, hrc] at hnone
      · simp only [Bool.not_eq_true] at hm
        by_cases hrc : retcode = 0 <;>
          simp [boot_supervisor, driver_final_error, boot_outcome, hm, hrc] at hnone
    · by_cases hrc : retcode = 0 <;>
        rcases e <;>
          simp [boot_supervisor, driver_final_error, boot_outcome, hrc] at hnone
  · intro hrc herr hm
    subst hrc herr
    simp [boot_supervisor, driver_final_error, boot_outcome, hm]
  · intro hrc herr hm
    subst hrc herr
    simp [boot_supervisor, driver_final_error, boot_outcome, hm]

/-- Sanity, on literal console transcripts: a "reboot: Power down" line with
exit 0 returns normally, exit 0 without any marker is
`MachineNeverShutoff`. -/
theorem boot_shutdown_detection_example :
    boot_supervisor none
        "systemd-shutdown: All filesystems unmounted.\nreboot: Power down\n" 0 =
      none ∧
    boot_supervisor none "Welcome to emergency mode!\n" 0 =
      some .machine_never_shutoff := by
  decide

/-! ## Console-driving sub-automata of `BootDriver.run`
(`installfedoraonzfs/vm.py`)

The loop reads the pty one byte at a time, keeps the trailing unterminated
line in `lastline` (reset on `\n`, `\r` ignored), and drives two independent
sub-automata by substring tests against that line: the LUKS-passphrase
automaton and the login/password/poweroff automaton.  Writes to the pty are
the externally visible events. -/

/-- States of the LUKS-passphrase sub-automaton. -/
inductive LuksState
  | unseen
  | waiting_for_escape_sequence
  | pending_write
  | written
  deriving DecidableEq, Repr, Fintype

/-- States of the login/password/poweroff sub-automaton. -/
inductive LoginState
  | unseen
  | login_prompt_about_to_appear
  | login_prompt_seen
  | login_written
  | password_prompt_seen
  | password_written
  | shell_prompt_seen
  | poweroff_written
  deriving DecidableEq, Repr, Fintype

/-- A write the driver performs on the pty. -/
inductive WriteEvent
  | write_luks_passphrase
  | hit_enter
  | write_login
  | write_password
  | write_poweroff
  deriving DecidableEq, Repr

/-- One pass of the LUKS sub-automaton over the current trailing line `s`
(the cascading `if luks_passphrase_prompt_state == ...` chain; all three
tests run in order against the same byte's line, so a state can advance
several times in one pass). -/
def luks_advance (s : List Char) (st : LuksState) : LuksState × List WriteEvent :=
  let st1 := if st = .unseen ∧ hasInfix "nter passphrase for".data s then
      LuksState.waiting_for_escape_sequence else st
  let st2 := if st1 = .waiting_for_escape_sequence ∧
      (hasInfix "[0m".data s || hasInfix ")!".data s) then
      LuksState.pending_write else st1
  if st2 = .pending_write then (.written, [.write_luks_passphrase])
  else (st2, [])

/-- One pass of the login sub-automaton over the current trailing line `s`
(the cascading `if login_prompt_state == ...` chain). -/
def login_advance (s : List Char) (st : LoginState) : LoginState × List WriteEvent :=
  let r1 := if st = .unseen ∧ hasInfix "(ttyS0)".data s then
      (LoginState.login_prompt_about_to_appear, [WriteEvent.hit_enter])
    else (st, ([] : List WriteEvent))
  let st2 := if r1.1 = .login_prompt_about_to_appear ∧ hasInfix " login: ".data s then
      LoginState.login_prompt_seen else r1.1
  let r2 := if st2 = .login_prompt_seen then
      (LoginState.login_written, r1.2 ++ [WriteEvent.write_login]) else (st2, r1.2)
  let st4 := if r2.1 = .login_written ∧ hasInfix "Password: ".data s then
      LoginState.password_prompt_seen else r2.1
  let r3 := if st4 = .password_prompt_seen then
      (LoginState.password_written, r2.2 ++ [WriteEvent.write_password]) else (st4, r2.2)
  let st6 := if r3.1 = .password_written ∧ hasInfix " ~]# ".data s then
      LoginState.shell_prompt_seen else r3.1
  if st6 = .shell_prompt_seen then
    (LoginState.poweroff_written, r3.2 ++ [WriteEvent.write_poweroff])
  else (st6, r3.2)

/-- The driver's per-session state: the trailing unterminated line and the
two sub-automata states. -/
structure DriverState where
  lastline : List Char
  luks : LuksState
  login : LoginState
  deriving DecidableEq, Repr

/-- Processing of one console byte: update `lastline`, then run the LUKS
sub-automaton (only when a passphrase was supplied) and the login
sub-automaton (only when login and password are non-empty) against the
updated line. -/
def driver_step (luks_enabled login_enabled : Bool) (st : DriverState) (c : Char) :
    DriverState × List WriteEvent :=
  let lastline := if c = '\n' then [] else if c = '\r' then st.lastline
    else st.lastline ++ [c]
  let rl := if luks_enabled then luks_advance lastline st.luks else (st.luks, [])
  let rg := if login_enabled then login_advance lastline st.login else (st.login, [])
  (⟨lastline, rl.1, rg.1⟩, rl.2 ++ rg.2)

/-- The console loop over a byte sequence, collecting every write. -/
def driver_run (luks_enabled login_enabled : Bool) :
    DriverState → List Char → DriverState × List WriteEvent
  | st, [] => (st, [])
  | st, c :: cs =>
    let r := driver_step luks_enabled login_enabled st c
    let r2 := driver_run luks_enabled login_enabled r.1 cs
    (r2.1, r.2 ++ r2.2)

/-- The state `BootDriver.run` starts from. -/
def driver_init : DriverState := ⟨[], .unseen, .unseen⟩

/-- Position of a login state in its forward-only progression. -/
def loginRank : LoginState → Nat
  | .unseen => 0
  | .login_prompt_about_to_appear => 1
  | .login_prompt_seen => 2
  | .login_written => 3
  | .password_prompt_seen => 4
  | .password_written => 5
  | .shell_prompt_seen => 6
  | .poweroff_written => 7

/-- 1 while the write guarded by rank threshold `t` is still possible. -/
def loginPot (t : Nat) (st : LoginState) : Nat := if loginRank st < t then 1 else 0

/-- 1 while the passphrase write is still possible. -/
def luksPot (st : LuksState) : Nat := if st = .written then 0 else 1

/-- One LUKS pass can spend the passphrase potential at most once, and a
spent potential (state `written`) stays spent with no further write. -/
theorem luks_advance_count (s : List Char) (st : LuksState) :
    ((luks_advance s st).2).count .write_luks_passphrase +
      luksPot (luks_advance s st).1 ≤ luksPot st := by
  cases st <;> simp only [luks_advance, luksPot] <;> split_ifs <;> simp_all

/-- The LUKS sub-automaton writes nothing but the passphrase. -/
theorem luks_advance_count_other (s : List Char) (st : LuksState) (e : WriteEvent)
    (he : e ≠ .write_luks_passphrase) :
    ((luks_advance s st).2).count e = 0 := by
  cases st <;> simp only [luks_advance] <;> split_ifs <;> simp_all

/-- The login sub-automaton never writes the LUKS passphrase. -/
theorem login_advance_count_luks (s : List Char) (st : LoginState) :
    ((login_advance s st).2).count .write_luks_passphrase = 0 := by
  unfold login_advance
  generalize hasInfix "(ttyS0)".data s = b1
  generalize hasInfix " login: ".data s = b2
  generalize hasInfix "Password: ".data s = b3
  generalize hasInfix " ~]# ".data s = b4
  revert st b1 b2 b3 b4
  decide

/-- One login pass spends the ENTER keystroke potential at most once. -/
theorem login_advance_count_hit_enter (s : List Char) (st : LoginState) :
    ((login_advance s st).2).count .hit_enter +
      loginPot 1 (login_advance s st).1 ≤ loginPot 1 st := by
  unfold login_advance
  generalize hasInfix "(ttyS0)".data s = b1
  generalize hasInfix " login: ".data s = b2
  generalize hasInfix "Password: ".data s = b3
  generalize hasInfix " ~]# ".data s = b4
  revert st b1 b2 b3 b4
  decide

/-- One login pass spends the login-write potential at most once. -/
theorem login_advance_count_write_login (s : List Char) (st : LoginState) :
    ((login_advance s st).2).count .write_login +
      loginPot 3 (login_advance s st).1 ≤ loginPot 3 st := by
  unfold login_advance
  generalize hasInfix "(ttyS0)".data s = b1
  generalize hasInfix " login: ".data s = b2
  generalize hasInfix "Password: ".data s = b3
  generalize hasInfix " ~]# ".data s = b4
  revert st b1 b2 b3 b4
  decide

/-- One login pass spends the password-write potential at most once. -/
theorem login_advance_count_write_password (s : List Char) (st : LoginState) :
    ((login_advance s st).2).count .write_password +
      loginPot 5 (login_advance s st).1 ≤ loginPot 5 st := by
  unfold login_advance
  generalize hasInfix "(ttyS0)".data s = b1
  generalize hasInfix " login: ".data s = b2
  generalize hasInfix "Password: ".data s = b3
  generalize hasInfix " ~]# ".data s = b4
  revert st b1 b2 b3 b4
  decide

/-- One login pass spends the poweroff-write potential at most once. -/
theorem login_advance_count_write_poweroff (s : List Char) (st : LoginState) :
    ((login_advance s st).2).count .write_poweroff +
      loginPot 7 (login_advance s st).1 ≤ loginPot 7 st := by
  unfold login_advance
  generalize hasInfix "(ttyS0)".data s = b1
  generalize hasInfix " login: ".data s = b2
  generalize hasInfix "Password: ".data s = b3
  generalize hasInfix " ~]# ".data s = b4
  revert st b1 b2 b3 b4
  decide

/-- A per-byte potential bound extends to the whole console run. -/
theorem driver_run_count_le (le lo : Bool) (e : WriteEvent) (pot : DriverState → Nat)
    (hstep : ∀ st c, ((driver_step le lo st c).2).count e +
        pot (driver_step le lo st c).1 ≤ pot st) :
    ∀ (cs : List Char) (st : DriverState),
      ((driver_run le lo st cs).2).count e +
        pot (driver_run le lo st cs).1 ≤ pot st := by
  intro cs
  induction cs with
  | nil => intro st; simp [driver_run]
  | cons c cs ih =>
    intro st
    have h1 := hstep st c
    have h2 := ih (driver_step le lo st c).1
    simp only [driver_run, List.count_append]
    omega

/-- Per-byte potential bound for the passphrase write. -/
theorem driver_step_luks_count (le lo : Bool) (st : DriverState) (c : Char) :
    ((driver_step le lo st c).2).count .write_luks_passphrase +
      luksPot (driver_step le lo st c).1.luks ≤ luksPot st.luks := by
  have hl := luks_advance_count
    (if c = '\n' then [] else if c = '\r' then st.lastline
      else st.lastline ++ [c]) st.luks
  have hg := login_advance_count_luks
    (if c = '\n' then [] else if c = '\r' then st.lastline
      else st.lastline ++ [c]) st.login
  unfold driver_step
  cases le <;> cases lo <;>
    simp only [if_true, if_false, Bool.false_eq_true, List.count_append,
      List.count_nil, hg] <;>
    omega

/-- Per-byte potential bound for a login-side write `e` with threshold
`t`, given the corresponding single-pass bound. -/
theorem driver_step_login_count (le lo : Bool) (e : WriteEvent) (t : Nat)
    (he : e ≠ .write_luks_passphrase)
    (hadv : ∀ (s : List Char) (lst : LoginState),
      ((login_advance s lst).2).count e +
        loginPot t (login_advance s lst).1 ≤ loginPot t lst) :
    ∀ (st : DriverState) (c : Char),
      ((driver_step le lo st c).2).count e +
        loginPot t (driver_step le lo st c).1.login ≤ loginPot t st.login := by
  intro st c
  have h1 := luks_advance_count_other
    (if c = '\n' then [] else if c = '\r' then st.lastline
      else st.lastline ++ [c]) st.luks e he
  have h2 := hadv
    (if c = '\n' then [] else if c = '\r' then st.lastline
      else st.lastline ++ [c]) st.login
  unfold driver_step
  cases le <;> cases lo <;>
    simp only [if_true, if_false, Bool.false_eq_true, List.count_append,
      List.count_nil, h1] <;>
    omega

/-- **C9**: over any console byte sequence, each sub-automaton triggers its
write at most once — from a state where the LUKS sub-automaton has reached
`written` it never writes the passphrase again, from `poweroff_written` the
login sub-automaton never writes login, password or poweroff again, and a
whole session from the initial state performs each of these writes at most
once, no matter how often the trigger substrings recur in the output. -/
theorem console_writes_at_most_once :
    ∀ (le lo : Bool) (cs : List Char) (st : DriverState),
      (st.luks = .written →
        ((driver_run le lo st cs).2).count .write_luks_passphrase = 0) ∧
      (st.login = .poweroff_written →
        ((driver_run le lo st cs).2).count .write_login = 0 ∧
        ((driver_run le lo st cs).2).count .write_password = 0 ∧
        ((driver_run le lo st cs).2).count .write_poweroff = 0) ∧
      (((driver_run le lo driver_init cs).2).count .write_luks_passphrase ≤ 1 ∧
        ((driver_run le lo driver_init cs).2).count .write_login ≤ 1 ∧
        ((driver_run le lo driver_init cs).2).count .write_password ≤ 1 ∧
        ((driver_run le lo driver_init cs).2).count .write_poweroff ≤ 1) := by
  intro le lo cs st
  have hluks := driver_run_count_le le lo .write_luks_passphrase
    (fun d => luksPot d.luks) (driver_step_luks_count le lo) cs
  have hlogin := driver_run_count_le le lo .write_login
    (fun d => loginPot 3 d.login)
    (driver_step_login_count le lo .write_login 3 (by simp)
      login_advance_count_write_login) cs
  have hpw := driver_run_count_le le lo .write_password
    (fun d => loginPot 5 d.login)
    (driver_step_login_count le lo .write_password 5 (by simp)
      login_advance_count_write_password) cs
  have hpo := driver_run_count_le le lo .write_poweroff
    (fun d => loginPot 7 d.login)
    (driver_step_login_count le lo .write_poweroff 7 (by simp)
      login_advance_count_write_poweroff) cs
  refine ⟨?_, ?_, ?_, ?_, ?_, ?_⟩
  · intro hw
    have := hluks st
    simp [luksPot, hw] at this
    omega
  · intro hw
    have h3 := hlogin st
    have h5 := hpw st
    have h7 := hpo st
    simp [loginPot, loginRank, hw] at h3 h5 h7
    omega
  · have := hluks driver_init
    simp [luksPot, driver_init] at this ⊢
    omega
  · have := hlogin driver_init
    simp [loginPot, loginRank, driver_init] at this ⊢
    omega
  · have := hpw driver_init
    simp [loginPot, loginRank, driver_init] at this ⊢
    omega
  · have := hpo driver_init
    simp [loginPot, loginRank, driver_init] at this ⊢
    omega

/-! ## Block-device acquisition: partition discovery in `blockdev_context`
(`installfedoraonzfs/__init__.py`)

After attaching loop devices, `blockdev_context` probes for the EFI and boot
partitions (numbers 2 and 3 of the device hosting boot) in two
`for i in reversed(range(2))` loops — probe, sleep 2 seconds, probe again;
then partition (`create=True`) or raise (`create=False`); then probe twice
more and treat still-missing partitions as fatal — and finally takes the
root partition as the whole volume device (separate boot device) or as
partition 4 of the volume device.  The filesystem is modelled as a function
from the running probe count to the list of existing device paths. -/

/-- Candidate names for the root partition (partition 4) of `rdev`:
`<dev>p4` for loop devices, else `<dev>-part4` then `<dev>4`. -/
def rootpart_candidates (rdev : String) : List String :=
  if rdev.startsWith "/dev/loop" then [rdev ++ "p4"]
  else [rdev ++ "-part4", rdev ++ "4"]

/-- `get_rootpart`: the first candidate that exists (`fs` lists existing
paths). -/
def get_rootpart (fs : List String) (rdev : String) : Option String :=
  (rootpart_candidates rdev).find? (fun p => fs.contains p)

/-- Candidate (EFI, boot) = (partition 2, partition 3) name pairs of
`bdev`: `(<dev>p2, <dev>p3)` for loop devices, else `(<dev>-part2,
<dev>-part3)` then `(<dev>2, <dev>3)`. -/
def efipart_bootpart_candidates (bdev : String) : List (String × String) :=
  if bdev.startsWith "/dev/loop" then [(bdev ++ "p2", bdev ++ "p3")]
  else [(bdev ++ "-part2", bdev ++ "-part3"), (bdev ++ "2", bdev ++ "3")]

/-- `get_efipart_bootpart`: the first candidate pair both of whose members
exist. -/
def get_efipart_bootpart (fs : List String) (bdev : String) :
    Option (String × String) :=
  (efipart_bootpart_candidates bdev).find?
    (fun pr => fs.contains pr.1 && fs.contains pr.2)

/-- Which device paths exist at the time of the `t`-th existence probe. -/
structure ProbeEnv where
  fs : Nat → List String

/-- Externally visible steps of the probe loops. -/
inductive BlockdevEvent
  | sleep2
  | partition_boot_cmd (dev : String) (with_root : Bool)
  deriving DecidableEq, Repr

/-- The failures `blockdev_context` can raise from the probe loops. -/
inductive BlockdevErr
  | wanted_partition (dev : String)
  | parts_not_created (dev : String)
  | root_missing (dev : String)
  deriving DecidableEq, Repr

/-- One `for i in reversed(range(2))` loop: probe; on a miss sleep 2 seconds
and probe again.  Returns the result, the updated probe count, and the
events. -/
def probeTwice (env : ProbeEnv) (t : Nat) (bdev : String) :
    Option (String × String) × Nat × List BlockdevEvent :=
  match get_efipart_bootpart (env.fs t) bdev with
  | some pr => (some pr, t + 1, [])
  | none =>
    match get_efipart_bootpart (env.fs (t + 1)) bdev with
    | some pr => (some pr, t + 2, [.sleep2])
    | none => (none, t + 2, [.sleep2])

/-- The two probe loops of `blockdev_context` around the EFI/boot partitions
of `bdev`: the first loop probes twice; if the partitions are still missing
it partitions the device (`create=True`, passing `with_root` = "no separate
boot device") or raises the configuration error (`create=False`); the
second loop probes twice more and a still-missing pair is the fatal
"partitions 2 or 3 failed to be created" error. -/
def blockdev_probe (env : ProbeEnv) (bdev : String) (with_root : Bool)
    (create : Bool) :
    List BlockdevEvent × Nat × Except BlockdevErr (String × String) :=
  match probeTwice env 0 bdev with
  | (some _, t1, e1) =>
    match probeTwice env t1 bdev with
    | (some pr, t2, e2) => (e1 ++ e2, t2, .ok pr)
    | (none, t2, e2) => (e1 ++ e2, t2, .error (.parts_not_created bdev))
  | (none, t1, e1) =>
    if create then
      match probeTwice env t1 bdev with
      | (some pr, t2, e2) =>
        (e1 ++ [.partition_boot_cmd bdev with_root] ++ e2, t2, .ok pr)
      | (none, t2, e2) =>
        (e1 ++ [.partition_boot_cmd bdev with_root] ++ e2, t2,
          .error (.parts_not_created bdev))
    else (e1, t1, .error (.wanted_partition bdev))

/-- Partition discovery of `blockdev_context`: boot and EFI are probed on
`bootdev` when a separate boot device is given, else on `voldev`; the root
partition is the whole volume device when a separate boot device is given,
else `get_rootpart` of the volume device evaluated after the loops.
Returns `(rootpart, bootpart, efipart)` like the context's `yield`. -/
def blockdev_discovery (env : ProbeEnv) (voldev : String) (bootdev : Option String)
    (create : Bool) :
    List BlockdevEvent × Except BlockdevErr (String × String × String) :=
  let bdev := bootdev.getD voldev
  let r := blockdev_probe env bdev bootdev.isNone create
  match r.2.2 with
  | .error e => (r.1, .error e)
  | .ok pr =>
    match bootdev with
    | some _ => (r.1, .ok (voldev, pr.2, pr.1))
    | none =>
      match get_rootpart (env.fs r.2.1) voldev with
      | some rootpart => (r.1, .ok (rootpart, pr.2, pr.1))
      | none => (r.1, .error (.root_missing voldev))

/-- One probe loop sleeps at most once and advances the probe count by at
most two; its events are nothing or a single sleep. -/
theorem probeTwice_spec (env : ProbeEnv) (t : Nat) (bdev : String) :
    ((probeTwice env t bdev).2.2 = [] ∨ (probeTwice env t bdev).2.2 = [.sleep2]) ∧
    (probeTwice env t bdev).2.1 ≤ t + 2 := by
  unfold probeTwice
  cases hg0 : get_efipart_bootpart (env.fs t) bdev with
  | some pr => simp
  | none =>
    cases hg1 : get_efipart_bootpart (env.fs (t + 1)) bdev with
    | some pr => simp
    | none => simp

/-- When both probes of one loop miss, the loop yields nothing after one
sleep and two probes. -/
theorem probeTwice_none (env : ProbeEnv) (t : Nat) (bdev : String)
    (h0 : get_efipart_bootpart (env.fs t) bdev = none)
    (h1 : get_efipart_bootpart (env.fs (t + 1)) bdev = none) :
    probeTwice env t bdev = (none, t + 2, [.sleep2]) := by
  unfold probeTwice
  simp [h0, h1]

/-- Across both loops the probe loops sleep at most twice and probe at most
four times. -/
theorem blockdev_probe_bounds (env : ProbeEnv) (bdev : String) (wr create : Bool) :
    ((blockdev_probe env bdev wr create).1).count BlockdevEvent.sleep2 ≤ 2 ∧
    (blockdev_probe env bdev wr create).2.1 ≤ 4 := by
  obtain ⟨ho1, ht1⟩ := probeTwice_spec env 0 bdev
  rcases hr1 : probeTwice env 0 bdev with ⟨o1, t1, e1⟩
  rw [hr1] at ho1 ht1
  obtain ⟨ho2, ht2⟩ := probeTwice_spec env t1 bdev
  rcases hr2 : probeTwice env t1 bdev with ⟨o2, t2, e2⟩
  rw [hr2] at ho2 ht2
  simp only at ho1 ht1 ho2 ht2
  unfold blockdev_probe
  rw [hr1]
  cases o1 with
  | some pr =>
    dsimp only
    rw [hr2]
    cases o2 <;> rcases ho1 with he1 | he1 <;> rcases ho2 with he2 | he2 <;>
      subst he1 <;> subst he2 <;> simp [List.count_append] <;> omega
  | none =>
    dsimp only
    cases create with
    | true =>
      rw [hr2]
      cases o2 <;> rcases ho1 with he1 | he1 <;> rcases ho2 with he2 | he2 <;>
        subst he1 <;> subst he2 <;> simp [List.count_append] <;> omega
    | false =>
      rcases ho1 with he1 | he1 <;> subst he1 <;> simp <;> omega

/-- With `create=False` the probe loops never emit the partitioning
command. -/
theorem blockdev_probe_no_partition (env : ProbeEnv) (bdev : String) (wr : Bool) :
    ∀ d w, BlockdevEvent.partition_boot_cmd d w ∉
      (blockdev_probe env bdev wr false).1 := by
  intro d w
  obtain ⟨ho1, _⟩ := probeTwice_spec env 0 bdev
  rcases hr1 : probeTwice env 0 bdev with ⟨o1, t1, e1⟩
  rw [hr1] at ho1
  obtain ⟨ho2, _⟩ := probeTwice_spec env t1 bdev
  rcases hr2 : probeTwice env t1 bdev with ⟨o2, t2, e2⟩
  rw [hr2] at ho2
  simp only at ho1 ho2
  unfold blockdev_probe
  rw [hr1]
  cases o1 with
  | some pr =>
    dsimp only
    rw [hr2]
    cases o2 <;> rcases ho1 with he1 | he1 <;> rcases ho2 with he2 | he2 <;>
      subst he1 <;> subst he2 <;> simp
  | none =>
    dsimp only
    rcases ho1 with he1 | he1 <;> subst he1 <;> simp

/-- The discovery's event trace is exactly the probe loops' trace. -/
theorem blockdev_discovery_trace (env : ProbeEnv) (v : String) (b : Option String)
    (c : Bool) :
    (blockdev_discovery env v b c).1 = (blockdev_probe env (b.getD v) b.isNone c).1 := by
  unfold blockdev_discovery
  rcases hr : (blockdev_probe env (b.getD v) b.isNone c).2.2 with e | pr <;>
    simp only [hr]
  rcases b with _ | bd
  · rcases hroot : get_rootpart
        (env.fs (blockdev_probe env (Option.getD none v) (Option.isNone none) c).2.1) v
      with _ | rp <;> simp [hroot]
  · simp

/-- With `create=False` and both first-loop probes missing, the discovery
raises the configuration error after one sleep, partitioning nothing. -/
theorem blockdev_discovery_verify_missing (env : ProbeEnv) (voldev : String)
    (bootdev : Option String)
    (h0 : get_efipart_bootpart (env.fs 0) (bootdev.getD voldev) = none)
    (h1 : get_efipart_bootpart (env.fs 1) (bootdev.getD voldev) = none) :
    blockdev_discovery env voldev bootdev false =
      ([.sleep2], .error (.wanted_partition (bootdev.getD voldev))) := by
  have hpt := probeTwice_none env 0 (bootdev.getD voldev) h0 h1
  have hprobe : blockdev_probe env (bootdev.getD voldev) bootdev.isNone false =
      ([.sleep2], 2, .error (.wanted_partition (bootdev.getD voldev))) := by
    unfold blockdev_probe
    rw [hpt]
    simp
  unfold blockdev_discovery
  simp [hprobe]

/-- With `create=True` and both first-loop probes missing, the partitioning
command runs, and partitions still missing on the second loop are the fatal
error. -/
theorem blockdev_discovery_create_missing (env : ProbeEnv) (voldev : String)
    (bootdev : Option String)
    (h0 : get_efipart_bootpart (env.fs 0) (bootdev.getD voldev) = none)
    (h1 : get_efipart_bootpart (env.fs 1) (bootdev.getD voldev) = none) :
    (BlockdevEvent.partition_boot_cmd (bootdev.getD voldev) bootdev.isNone ∈
      (blockdev_discovery env voldev bootdev true).1) ∧
    (get_efipart_bootpart (env.fs 2) (bootdev.getD voldev) = none →
     get_efipart_bootpart (env.fs 3) (bootdev.getD voldev) = none →
     (blockdev_discovery env voldev bootdev true).2 =
       .error (.parts_not_created (bootdev.getD voldev))) := by
  have hpt := probeTwice_none env 0 (bootdev.getD voldev) h0 h1
  constructor
  · rw [blockdev_discovery_trace]
    unfold blockdev_probe
    rw [hpt]
    dsimp only
    rcases hr2 : probeTwice env 2 (bootdev.getD voldev) with ⟨o2, t2, e2⟩
    cases o2 <;> simp
  · intro h2 h3
    have hpt2 := probeTwice_none env 2 (bootdev.getD voldev) h2 h3
    have hprobe : blockdev_probe env (bootdev.getD voldev) bootdev.isNone true =
        ([.sleep2, .partition_boot_cmd (bootdev.getD voldev) bootdev.isNone,
          .sleep2], 4,
          .error (.parts_not_created (bootdev.getD voldev))) := by
      unfold blockdev_probe
      rw [hpt]
      dsimp only
      rw [hpt2]
      simp
    unfold blockdev_discovery
    simp [hprobe]

/-- A successful discovery returns the whole volume device as root when a
separate boot device is given, else one of the partition-4 candidate names
of the volume device. -/
theorem blockdev_discovery_root (env : ProbeEnv) (voldev : String)
    (bootdev : Option String) (create : Bool) :
    ∀ rootpart bootpart efipart,
      (blockdev_discovery env voldev bootdev create).2 =
        .ok (rootpart, bootpart, efipart) →
      (bootdev.isSome = true → rootpart = voldev) ∧
      (bootdev = none → rootpart ∈ rootpart_candidates voldev) := by
  intro rootpart bootpart efipart hok
  rcases hr : (blockdev_probe env (bootdev.getD voldev) bootdev.isNone create).2.2
      with e | pr
  · have heq : blockdev_discovery env voldev bootdev create =
        ((blockdev_probe env (bootdev.getD voldev) bootdev.isNone create).1,
          .error e) := by
      unfold blockdev_discovery
      simp only [hr]
    rw [heq] at hok
    simp at hok
  · rcases bootdev with _ | bd
    · rcases hroot : get_rootpart
          (env.fs (blockdev_probe env (Option.getD (none : Option String) voldev)
            (Option.isNone (none : Option String)) create).2.1) voldev with _ | rp
      · have heq : blockdev_discovery env voldev none create =
            ((blockdev_probe env (Option.getD (none : Option String) voldev)
              (Option.isNone (none : Option String)) create).1,
              .error (.root_missing voldev)) := by
          unfold blockdev_discovery
          simp only [hr, hroot]
        rw [heq] at hok
        simp at hok
      · have heq : blockdev_discovery env voldev none create =
            ((blockdev_probe env (Option.getD (none : Option String) voldev)
              (Option.isNone (none : Option String)) create).1,
              .ok (rp, pr.2, pr.1)) := by
          unfold blockdev_discovery
          simp only [hr, hroot]
        rw [heq] at hok
        simp at hok
        refine ⟨by simp, fun _ => ?_⟩
        rw [← hok.1]
        have hroot2 := hroot
        simp only [get_rootpart] at hroot2
        exact List.mem_of_find?_eq_some hroot2
    · have heq : blockdev_discovery env voldev (some bd) create =
          ((blockdev_probe env ((some bd).getD voldev)
            (Option.isNone (some bd)) create).1, .ok (voldev, pr.2, pr.1)) := by
        unfold blockdev_discovery
        simp only [hr]
      rw [heq] at hok
      simp at hok
      exact ⟨fun _ => hok.1.symm, by simp⟩

/-- The probing conventions of `get_efipart_bootpart`: `<dev>p2`/`<dev>p3`
for loop devices; `<dev>-part2`/`<dev>-part3` and then `<dev>2`/`<dev>3`
otherwise. -/
theorem get_efipart_bootpart_naming (fs : List String) (d : String) :
    (d.startsWith "/dev/loop" = true →
      get_efipart_bootpart fs d =
        (if fs.contains (d ++ "p2") && fs.contains (d ++ "p3") then
          some (d ++ "p2", d ++ "p3") else none)) ∧
    (d.startsWith "/dev/loop" = false →
      get_efipart_bootpart fs d =
        (if fs.contains (d ++ "-part2") && fs.contains (d ++ "-part3") then
          some (d ++ "-part2", d ++ "-part3")
         else if fs.contains (d ++ "2") && fs.contains (d ++ "3") then
          some (d ++ "2", d ++ "3") else none)) := by
  constructor
  · intro hloop
    unfold get_efipart_bootpart efipart_bootpart_candidates
    rw [hloop]
    simp only [if_true]
    cases h : fs.contains (d ++ "p2") && fs.contains (d ++ "p3") with
    | false =>
      rw [List.find?_cons_of_neg _ (by simp_all), List.find?_nil]
      simp
    | true =>
      rw [List.find?_cons_of_pos _ (by simp_all)]
      simp
  · intro hother
    unfold get_efipart_bootpart efipart_bootpart_candidates
    rw [hother]
    simp only [Bool.false_eq_true, if_false]
    cases h1 : fs.contains (d ++ "-part2") && fs.contains (d ++ "-part3") with
    | false =>
      rw [List.find?_cons_of_neg _ (by simp_all)]
      cases h2 : fs.contains (d ++ "2") && fs.contains (d ++ "3") with
      | false =>
        rw [List.find?_cons_of_neg _ (by simp_all), List.find?_nil]
        simp
      | true =>
        rw [List.find?_cons_of_pos _ (by simp_all)]
        simp
    | true =>
      rw [List.find?_cons_of_pos _ (by simp_all)]
      simp

/-- **C6**: partition discovery probes EFI and boot (partitions 2 and 3 of
the device hosting boot) under the loop-device naming convention `<dev>pN`
and otherwise `<dev>-partN` before `<dev>N`, retrying each loop once after a
2-second sleep (at most two sleeps across the loops); when the partitions
are missing under `create=False` the configuration error is raised and the
partitioning tool is never invoked, while under `create=True` the
partitioning tool runs on the device hosting boot (with the fourth root
partition exactly when no separate boot device is given) and partitions
still missing on re-probe are the fatal "failed to be created" error; a
successful discovery returns the whole volume device as root when a
separate boot device is given, else one of the partition-4 names of the
volume device. -/
theorem blockdev_partition_discovery :
    ∀ (env : ProbeEnv) (voldev : String) (bootdev : Option String) (create : Bool),
      (∀ (fs : List String) (d : String),
        (d.startsWith "/dev/loop" = true →
          get_efipart_bootpart fs d =
            (if fs.contains (d ++ "p2") && fs.contains (d ++ "p3") then
              some (d ++ "p2", d ++ "p3") else none)) ∧
        (d.startsWith "/dev/loop" = false →
          get_efipart_bootpart fs d =
            (if fs.contains (d ++ "-part2") && fs.contains (d ++ "-part3") then
              some (d ++ "-part2", d ++ "-part3")
             else if fs.contains (d ++ "2") && fs.contains (d ++ "3") then
              some (d ++ "2", d ++ "3") else none))) ∧
      ((blockdev_discovery env voldev bootdev create).1.count
          BlockdevEvent.sleep2 ≤ 2) ∧
      (∀ d w, BlockdevEvent.partition_boot_cmd d w ∉
        (blockdev_discovery env voldev bootdev false).1) ∧
      (get_efipart_bootpart (env.fs 0) (bootdev.getD voldev) = none →
        get_efipart_bootpart (env.fs 1) (bootdev.getD voldev) = none →
        blockdev_discovery env voldev bootdev false =
          ([.sleep2], .error (.wanted_partition (bootdev.getD voldev)))) ∧
      (get_efipart_bootpart (env.fs 0) (bootdev.getD voldev) = none →
        get_efipart_bootpart (env.fs 1) (bootdev.getD voldev) = none →
        (BlockdevEvent.partition_boot_cmd (bootdev.getD voldev) bootdev.isNone ∈
          (blockdev_discovery env voldev bootdev true).1) ∧
        (get_efipart_bootpart (env.fs 2) (bootdev.getD voldev) = none →
         get_efipart_bootpart (env.fs 3) (bootdev.getD voldev) = none →
         (blockdev_discovery env voldev bootdev true).2 =
           .error (.parts_not_created (bootdev.getD voldev)))) ∧
      (∀ rootpart bootpart efipart,
        (blockdev_discovery env voldev bootdev create).2 =
          .ok (rootpart, bootpart, efipart) →
        (bootdev.isSome = true → rootpart = voldev) ∧
        (bootdev = none → rootpart ∈ rootpart_candidates voldev)) := by
  intro env voldev bootdev create
  refine ⟨?_, ?_, ?_, ?_, ?_, ?_⟩
  · exact get_efipart_bootpart_naming
  · rw [blockdev_discovery_trace]
    exact (blockdev_probe_bounds env (bootdev.getD voldev) bootdev.isNone create).1
  · intro d w
    rw [blockdev_discovery_trace]
    exact blockdev_probe_no_partition env (bootdev.getD voldev) bootdev.isNone d w
  · exact blockdev_discovery_verify_missing env voldev bootdev
  · exact blockdev_discovery_create_missing env voldev bootdev
  · exact blockdev_discovery_root env voldev bootdev create

/-! ## Filesystem/pool acquisition: `setup_boot_filesystems` and
`filesystem_context` (`installfedoraonzfs/__init__.py`)

The function runs a fixed sequence of independently gated steps: boot and
EFI filesystems, optional LUKS, pool import-or-create, the `ROOT` and
`ROOT/os` datasets, the swap zvol, the zvol device node poll, swap
formatting, and finally the mounts.  Each "absent and `create=False`"
condition raises a distinct exception whose message names the missing
resource; the model reproduces those messages from the source's
f-strings.  External state is an `FsEnv` recording what each probe
reports, and the result is the list of commands run plus the error
raised, if any. -/

/-- What the external probes of `filesystem_context` report. -/
structure FsEnv where
  bootpart_blkid : String
  efipart_blkid : String
  rootpart_uuid : Except Int String
  rootpart_uuid_after_format : String
  mapping_exists : Bool
  luks_open_ok : Bool
  pool_listed : Bool
  import_ok : Bool
  root_ds_ok : Bool
  root_os_ds_ok : Bool
  root_os_mounted : Bool
  swap_ds_ok : Bool
  swap_node_appears : Bool
  swap_blkid : String
  boot_mounted : Bool
  efi_mounted : Bool

/-- The commands `filesystem_context` can run (each standing for the
`check_call`/`Popen` at the corresponding spot in the source). -/
inductive FsCmd
  | mkfs_ext4_cmd (dev : String)
  | mkfs_vfat_cmd (dev : String)
  | luks_format_cmd (dev : String)
  | luks_open_cmd (dev : String)
  | zpool_import_cmd (pool : String)
  | zpool_create_cmd (pool : String)
  | zfs_create_root_cmd (pool : String)
  | zfs_create_root_os_cmd (pool : String)
  | zfs_mount_cmd (pool : String)
  | zfs_create_swap_cmd (pool : String)
  | mkswap_cmd (dev : String)
  | mount_cmd (dev : String)
  deriving DecidableEq, Repr

/-- The commands that format, create a pool, create a dataset or create
swap — the ones `create=False` must never run. -/
def is_creation_cmd : FsCmd → Bool
  | .mkfs_ext4_cmd _ => true
  | .mkfs_vfat_cmd _ => true
  | .luks_format_cmd _ => true
  | .zpool_create_cmd _ => true
  | .zfs_create_root_cmd _ => true
  | .zfs_create_root_os_cmd _ => true
  | .zfs_create_swap_cmd _ => true
  | .mkswap_cmd _ => true
  | _ => false

/-- The exceptions of `filesystem_context`: configuration errors carry the
f-string message of the source. -/
inductive FsErr
  | config (msg : String)
  | blkid_failed (retcode : Int)
  | no_uuid_after_format (dev : String)
  | luks_open_failed (dev : String)
  | zfs_malfunction
  deriving DecidableEq, Repr

/-- Commands run so far, and the exception that aborted the sequence. -/
abbrev FsStep := List FsCmd × Option FsErr

/-- Sequencing: an exception short-circuits everything after it. -/
def fsSeq (a : FsStep) (k : Unit → FsStep) : FsStep :=
  match a with
  | (cs, some e) => (cs, some e)
  | (cs, none) => ((cs ++ (k ()).1, (k ()).2) : FsStep)

/-- Boot filesystem step of `setup_boot_filesystems`: reuse an existing
ext4, else format (`create`) or raise. -/
def phase_boot_fs (env : FsEnv) (bootpart : String) (create : Bool) : FsStep :=
  if hasInfix "TYPE=\"ext4\"".data env.bootpart_blkid.data then ([], none)
  else if create then ([.mkfs_ext4_cmd bootpart], none)
  else ([], some (.config ("Wanted to create boot file system on " ++ bootpart
    ++ " but create=False (output: " ++ env.bootpart_blkid ++ ")")))

/-- EFI filesystem step of `setup_boot_filesystems`. -/
def phase_efi_fs (env : FsEnv) (efipart : String) (create : Bool) : FsStep :=
  if hasInfix "TYPE=\"vfat\"".data env.efipart_blkid.data then ([], none)
  else if create then ([.mkfs_vfat_cmd efipart], none)
  else ([], some (.config ("Wanted to create EFI file system on " ++ efipart
    ++ " but create=False")))

/-- Does the LUKS step have to `luksFormat` first?  Yes when `blkid`
reports no UUID (`IndexError`) or exits 2; any other non-zero `blkid` exit
re-raises. -/
def luks_needs_doing (env : FsEnv) : Except Int Bool :=
  match env.rootpart_uuid with
  | .ok u => .ok (u = "")
  | .error rc => if rc = 2 then .ok true else .error rc

/-- The UUID the LUKS step ends up with, after formatting if needed. -/
def luks_uuid_used (env : FsEnv) : String :=
  match env.rootpart_uuid with
  | .ok u => if u = "" then env.rootpart_uuid_after_format else u
  | .error _ => env.rootpart_uuid_after_format

/-- LUKS step of `filesystem_context`: skipped without a passphrase;
otherwise derive `luks-<uuid>` from the root partition's UUID, formatting
first when there is no UUID yet (`create` only — `create=False` raises the
configuration error), then open the mapping if it is not already open. -/
def phase_luks (env : FsEnv) (rootpart : String) (lukspassword : Option String)
    (create : Bool) : FsStep :=
  match lukspassword with
  | none => ([], none)
  | some _ =>
    match luks_needs_doing env with
    | .error rc => ([], some (.blkid_failed rc))
    | .ok needsdoing =>
      let fmt : FsStep :=
        if needsdoing then
          if ¬ create then
            ([], some (.config ("Wanted to create LUKS volume on " ++ rootpart
              ++ " but create=False")))
          else if env.rootpart_uuid_after_format = "" then
            ([.luks_format_cmd rootpart], some (.no_uuid_after_format rootpart))
          else ([.luks_format_cmd rootpart], none)
        else ([], none)
      fsSeq fmt fun _ =>
        if env.mapping_exists then ([], none)
        else if env.luks_open_ok then ([.luks_open_cmd rootpart], none)
        else ([.luks_open_cmd rootpart], some (.luks_open_failed rootpart))

/-- The root partition the pool step sees: the opened LUKS mapping when a
passphrase was given, the raw partition otherwise. -/
def effective_rootpart (env : FsEnv) (rootpart : String)
    (lukspassword : Option String) : String :=
  match lukspassword with
  | none => rootpart
  | some _ => "/dev/mapper/luks-" ++ luks_uuid_used env

/-- Pool step: reuse an active pool; else import (attempted in both modes);
else create (`create`) or raise the configuration error. -/
def phase_pool (env : FsEnv) (poolname rootpart : String) (create : Bool) : FsStep :=
  if env.pool_listed then ([], none)
  else if env.import_ok then ([.zpool_import_cmd poolname], none)
  else if create then ([.zpool_import_cmd poolname, .zpool_create_cmd poolname], none)
  else ([.zpool_import_cmd poolname],
    some (.config ("Wanted to create ZFS pool " ++ poolname ++ " on " ++ rootpart
      ++ " but create=False")))

/-- `ROOT` dataset step. -/
def phase_root_ds (env : FsEnv) (poolname : String) (create : Bool) : FsStep :=
  if env.root_ds_ok then ([], none)
  else if create then ([.zfs_create_root_cmd poolname], none)
  else ([], some (.config ("Wanted to create ZFS file system ROOT on " ++ poolname
    ++ " but create=False")))

/-- `ROOT/os` dataset step (an existing dataset is mounted when it is not
yet a mountpoint). -/
def phase_root_os (env : FsEnv) (poolname : String) (create : Bool) : FsStep :=
  if env.root_os_ds_ok then
    ((if env.root_os_mounted then [] else [.zfs_mount_cmd poolname]), none)
  else if create then ([.zfs_create_root_os_cmd poolname], none)
  else ([], some (.config ("Wanted to create ZFS file system ROOT/os on " ++ poolname
    ++ " but create=False")))

/-- Swap zvol step. -/
def phase_swap_ds (env : FsEnv) (poolname : String) (create : Bool) : FsStep :=
  if env.swap_ds_ok then ([], none)
  else if create then ([.zfs_create_swap_cmd poolname], none)
  else ([], some (.config ("Wanted to create ZFS file system swap on " ++ poolname
    ++ " but create=False")))

/-- The kernel's device node for the swap zvol must appear within the poll
budget; otherwise the fatal ZFS-malfunction error. -/
def phase_swap_node (env : FsEnv) : FsStep :=
  if env.swap_node_appears then ([], none) else ([], some .zfs_malfunction)

/-- Swap formatting step. -/
def phase_swap_format (env : FsEnv) (poolname : String) (create : Bool) : FsStep :=
  if hasInfix "TYPE=\"swap\"".data env.swap_blkid.data then ([], none)
  else if create then ([.mkswap_cmd ("/dev/zvol/" ++ poolname ++ "/swap")], none)
  else ([], some (.config ("Wanted to create swap volume on " ++ poolname
    ++ "/swap but create=False")))

/-- The mount phase: mount `/boot` and `/boot/efi` when not already mounted
(the `/proc` and `/sys` bind mounts and the mkdir/chmod calls run no
formatting or creation command either and are represented by the same
non-creating `mount_cmd`). -/
def phase_mounts (env : FsEnv) (bootpart efipart : String) : FsStep :=
  ((if env.boot_mounted then [] else [.mount_cmd bootpart]) ++
    (if env.efi_mounted then [] else [.mount_cmd efipart]), none)

/-- `filesystem_context` up to its `yield`: the gated steps in source
order. -/
def filesystem_context (env : FsEnv) (poolname rootpart bootpart efipart : String)
    (lukspassword : Option String) (create : Bool) : FsStep :=
  fsSeq (phase_boot_fs env bootpart create) fun _ =>
  fsSeq (phase_efi_fs env efipart create) fun _ =>
  fsSeq (phase_luks env rootpart lukspassword create) fun _ =>
  fsSeq (phase_pool env poolname
      (effective_rootpart env rootpart lukspassword) create) fun _ =>
  fsSeq (phase_root_ds env poolname create) fun _ =>
  fsSeq (phase_root_os env poolname create) fun _ =>
  fsSeq (phase_swap_ds env poolname create) fun _ =>
  fsSeq (phase_swap_node env) fun _ =>
  fsSeq (phase_swap_format env poolname create) fun _ =>
  phase_mounts env bootpart efipart

/-- Sequencing preserves a property of every command run. -/
theorem fsSeq_all (P : FsCmd → Prop) (a : FsStep) (k : Unit → FsStep)
    (ha : ∀ c ∈ a.1, P c) (hk : ∀ c ∈ (k ()).1, P c) :
    ∀ c ∈ (fsSeq a k).1, P c := by
  rcases a with ⟨cs, e⟩
  cases e with
  | some err => simpa using ha
  | none =>
    intro c hc
    simp only [fsSeq, List.mem_append] at hc
    rcases hc with h | h
    · exact ha c (by simpa using h)
    · exact hk c h

/-- In verify mode the boot-filesystem step runs no creation command. -/
theorem phase_boot_fs_verify (env : FsEnv) (bp : String) :
    ∀ c ∈ (phase_boot_fs env bp false).1, is_creation_cmd c = false := by
  unfold phase_boot_fs
  split_ifs <;> simp_all

/-- In verify mode the EFI-filesystem step runs no creation command. -/
theorem phase_efi_fs_verify (env : FsEnv) (ep : String) :
    ∀ c ∈ (phase_efi_fs env ep false).1, is_creation_cmd c = false := by
  unfold phase_efi_fs
  split_ifs <;> simp_all

/-- In verify mode the LUKS step runs no creation command (it may still
open an existing mapping). -/
theorem phase_luks_verify (env : FsEnv) (rp : String) (lp : Option String) :
    ∀ c ∈ (phase_luks env rp lp false).1, is_creation_cmd c = false := by
  unfold phase_luks
  rcases lp with _ | pw
  · simp
  · cases hnd : luks_needs_doing env with
    | error rc => simp
    | ok nd =>
      cases nd <;> simp [fsSeq] <;> split_ifs <;> simp [is_creation_cmd]

/-- In verify mode the pool step may import but never creates. -/
theorem phase_pool_verify (env : FsEnv) (pool rp : String) :
    ∀ c ∈ (phase_pool env pool rp false).1, is_creation_cmd c = false := by
  unfold phase_pool
  split_ifs <;> simp_all [is_creation_cmd]

/-- In verify mode the `ROOT` dataset step runs no creation command. -/
theorem phase_root_ds_verify (env : FsEnv) (pool : String) :
    ∀ c ∈ (phase_root_ds env pool false).1, is_creation_cmd c = false := by
  unfold phase_root_ds
  split_ifs <;> simp_all

/-- In verify mode the `ROOT/os` step may mount but never creates. -/
theorem phase_root_os_verify (env : FsEnv) (pool : String) :
    ∀ c ∈ (phase_root_os env pool false).1, is_creation_cmd c = false := by
  unfold phase_root_os
  split_ifs <;> simp_all [is_creation_cmd]

/-- In verify mode the swap zvol step runs no creation command. -/
theorem phase_swap_ds_verify (env : FsEnv) (pool : String) :
    ∀ c ∈ (phase_swap_ds env pool false).1, is_creation_cmd c = false := by
  unfold phase_swap_ds
  split_ifs <;> simp_all

/-- The zvol device-node poll runs no command at all. -/
theorem phase_swap_node_verify (env : FsEnv) :
    ∀ c ∈ (phase_swap_node env).1, is_creation_cmd c = false := by
  unfold phase_swap_node
  split_ifs <;> simp

/-- In verify mode the swap-formatting step runs no creation command. -/
theorem phase_swap_format_verify (env : FsEnv) (pool : String) :
    ∀ c ∈ (phase_swap_format env pool false).1, is_creation_cmd c = false := by
  unfold phase_swap_format
  split_ifs <;> simp_all

/-- The mount phase runs only mounts. -/
theorem phase_mounts_verify (env : FsEnv) (bp ep : String) :
    ∀ c ∈ (phase_mounts env bp ep).1, is_creation_cmd c = false := by
  unfold phase_mounts
  split_ifs <;> simp [is_creation_cmd]

/-- With `create=False` no formatting, pool-creation, dataset-creation or
swap-creation command is ever run, whatever the environment reports. -/
theorem filesystem_context_never_creates (env : FsEnv)
    (poolname rootpart bootpart efipart : String) (lukspassword : Option String) :
    ∀ c ∈ (filesystem_context env poolname rootpart bootpart efipart
        lukspassword false).1, is_creation_cmd c = false := by
  unfold filesystem_context
  refine fsSeq_all _ _ _ (phase_boot_fs_verify env bootpart) ?_
  refine fsSeq_all _ _ _ (phase_efi_fs_verify env efipart) ?_
  refine fsSeq_all _ _ _ (phase_luks_verify env rootpart lukspassword) ?_
  refine fsSeq_all _ _ _ (phase_pool_verify env poolname _) ?_
  refine fsSeq_all _ _ _ (phase_root_ds_verify env poolname) ?_
  refine fsSeq_all _ _ _ (phase_root_os_verify env poolname) ?_
  refine fsSeq_all _ _ _ (phase_swap_ds_verify env poolname) ?_
  refine fsSeq_all _ _ _ (phase_swap_node_verify env) ?_
  refine fsSeq_all _ _ _ (phase_swap_format_verify env poolname) ?_
  exact phase_mounts_verify env bootpart efipart

/-- **C3**: with `create=False`, filesystem/pool acquisition never runs a
formatting, pool-creation, dataset-creation or swap-creation command, and
each absent resource raises its own configuration error naming the
resource: the boot filesystem, the EFI filesystem, the LUKS volume (no
UUID on the root partition), the pool (not active and not importable), the
`ROOT` and `ROOT/os` datasets, the swap zvol, and the unformatted swap
volume. -/
theorem filesystem_context_verify_fails_closed :
    ∀ (env : FsEnv) (poolname rootpart bootpart efipart : String)
      (lukspassword : Option String),
      (∀ c ∈ (filesystem_context env poolname rootpart bootpart efipart
          lukspassword false).1, is_creation_cmd c = false) ∧
      (hasInfix "TYPE=\"ext4\"".data env.bootpart_blkid.data = false →
        (filesystem_context env poolname rootpart bootpart efipart
            lukspassword false).2 =
          some (.config ("Wanted to create boot file system on " ++ bootpart
            ++ " but create=False (output: " ++ env.bootpart_blkid ++ ")"))) ∧
      (hasInfix "TYPE=\"ext4\"".data env.bootpart_blkid.data = true →
        hasInfix "TYPE=\"vfat\"".data env.efipart_blkid.data = false →
        (filesystem_context env poolname rootpart bootpart efipart
            lukspassword false).2 =
          some (.config ("Wanted to create EFI file system on " ++ efipart
            ++ " but create=False"))) ∧
      (hasInfix "TYPE=\"ext4\"".data env.bootpart_blkid.data = true →
        hasInfix "TYPE=\"vfat\"".data env.efipart_blkid.data = true →
        lukspassword.isSome = true →
        luks_needs_doing env = .ok true →
        (filesystem_context env poolname rootpart bootpart efipart
            lukspassword false).2 =
          some (.config ("Wanted to create LUKS volume on " ++ rootpart
            ++ " but create=False"))) ∧
      (hasInfix "TYPE=\"ext4\"".data env.bootpart_blkid.data = true →
        hasInfix "TYPE=\"vfat\"".data env.efipart_blkid.data = true →
        env.pool_listed = false → env.import_ok = false →
        (filesystem_context env poolname rootpart bootpart efipart
            none false).2 =
          some (.config ("Wanted to create ZFS pool " ++ poolname ++ " on "
            ++ rootpart ++ " but create=False"))) ∧
      (hasInfix "TYPE=\"ext4\"".data env.bootpart_blkid.data = true →
        hasInfix "TYPE=\"vfat\"".data env.efipart_blkid.data = true →
        env.pool_listed = true → env.root_ds_ok = false →
        (filesystem_context env poolname rootpart bootpart efipart
            none false).2 =
          some (.config ("Wanted to create ZFS file system ROOT on " ++ poolname
            ++ " but create=False"))) ∧
      (hasInfix "TYPE=\"ext4\"".data env.bootpart_blkid.data = true →
        hasInfix "TYPE=\"vfat\"".data env.efipart_blkid.data = true →
        env.pool_listed = true → env.root_ds_ok = true →
        env.root_os_ds_ok = false →
        (filesystem_context env poolname rootpart bootpart efipart
            none false).2 =
          some (.config ("Wanted to create ZFS file system ROOT/os on "
            ++ poolname ++ " but create=False"))) ∧
      (hasInfix "TYPE=\"ext4\"".data env.bootpart_blkid.data = true →
        hasInfix "TYPE=\"vfat\"".data env.efipart_blkid.data = true →
        env.pool_listed = true → env.root_ds_ok = true →
        env.root_os_ds_ok = true → env.swap_ds_ok = false →
        (filesystem_context env poolname rootpart bootpart efipart
            none false).2 =
          some (.config ("Wanted to create ZFS file system swap on " ++ poolname
            ++ " but create=False"))) ∧
      (hasInfix "TYPE=\"ext4\"".data env.bootpart_blkid.data = true →
        hasInfix "TYPE=\"vfat\"".data env.efipart_blkid.data = true →
        env.pool_listed = true → env.root_ds_ok = true →
        env.root_os_ds_ok = true → env.swap_ds_ok = true →
        env.swap_node_appears = true →
        hasInfix "TYPE=\"swap\"".data env.swap_blkid.data = false →
        (filesystem_context env poolname rootpart bootpart efipart
            none false).2 =
          some (.config ("Wanted to create swap volume on " ++ poolname
            ++ "/swap but create=False"))) := by
  intro env poolname rootpart bootpart efipart lukspassword
  refine ⟨filesystem_context_never_creates env poolname rootpart bootpart efipart
    lukspassword, ?_, ?_, ?_, ?_, ?_, ?_, ?_, ?_⟩
  · intro hb
    simp [filesystem_context, fsSeq, phase_boot_fs, hb]
  · intro hb he
    simp [filesystem_context, fsSeq, phase_boot_fs, phase_efi_fs, hb, he]
  · intro hb he hsome hnd
    rcases lukspassword with _ | pw
    · simp at hsome
    · simp [filesystem_context, fsSeq, phase_boot_fs, phase_efi_fs, phase_luks,
        hb, he, hnd]
  · intro hb he hpl hio
    simp [filesystem_context, fsSeq, phase_boot_fs, phase_efi_fs, phase_luks,
      phase_pool, effective_rootpart, hb, he, hpl, hio]
  · intro hb he hpl hr
    simp [filesystem_context, fsSeq, phase_boot_fs, phase_efi_fs, phase_luks,
      phase_pool, phase_root_ds, hb, he, hpl, hr]
  · intro hb he hpl hr hro
    simp [filesystem_context, fsSeq, phase_boot_fs, phase_efi_fs, phase_luks,
      phase_pool, phase_root_ds, phase_root_os, hb, he, hpl, hr, hro]
  · intro hb he hpl hr hro hsw
    simp [filesystem_context, fsSeq, phase_boot_fs, phase_efi_fs, phase_luks,
      phase_pool, phase_root_ds, phase_root_os, phase_swap_ds,
      hb, he, hpl, hr, hro, hsw]
  · intro hb he hpl hr hro hsw hnode hfmt
    simp [filesystem_context, fsSeq, phase_boot_fs, phase_efi_fs, phase_luks,
      phase_pool, phase_root_ds, phase_root_os, phase_swap_ds, phase_swap_node,
      phase_swap_format, hb, he, hpl, hr, hro, hsw, hnode, hfmt]

/-- Sanity: a concrete all-absent environment in verify mode stops at the
missing boot filesystem having run nothing. -/
theorem filesystem_context_verify_example :
    filesystem_context
      ⟨"", "", .ok "", "", false, false, false, false, false, false, false,
        false, false, "", false, false⟩
      "tank" "/dev/loop0p4" "/dev/loop0p3" "/dev/loop0p2" none false =
      ([], some (.config ("Wanted to create boot file system on /dev/loop0p3"
        ++ " but create=False (output: )"))) := by
  decide

/-! ## `umount` with retries (`installfedoraonzfs/cmd.py`)

```
def umount(mountpoint, tries=5):
    sleep = 1
    while True:
        if not ismount(mountpoint): return None
        try: check_call(["umount", str(mountpoint)]); break
        except subprocess.CalledProcessError:
            openfiles = check_for_open_files(mountpoint)
            if openfiles:
                pids = _printfiles(openfiles)
                if tries <= 1 and pids: _killpids(pids)
            if tries <= 0: raise
            time.sleep(sleep); tries -= 1; sleep = sleep * 2
```
`_killpids` sends SIGKILL to every pid except `os.getpid()`. -/

/-- What the world reports at one iteration of `umount`'s loop: whether the
target is still a mountpoint, whether the external `umount` command
succeeds, and the pids `_printfiles` collects from `check_for_open_files`
(empty both when no files are open and when only `<mount>` rows, which
carry no pid, are found). -/
structure UmountObs where
  mounted : Bool
  umount_ok : Bool
  open_pids : List Int

/-- Externally visible steps of `umount`. -/
inductive UmountEvent
  | umount_cmd
  | kill_pid (p : Int)
  | sleep_for (n : Nat)
  deriving DecidableEq, Repr

/-- The `while True` loop of `umount`, one observation per iteration;
`none` when the observation list runs out (the theorems always supply
enough).  Returns the events in order and `true` for a normal return,
`false` for a propagated `CalledProcessError`. -/
def umountGo (self_pid : Int) : List UmountObs → Int → Nat →
    Option (List UmountEvent × Bool)
  | [], _, _ => none
  | o :: rest, tries, slp =>
    if o.mounted = false then some ([], true)
    else if o.umount_ok then some ([.umount_cmd], true)
    else
      let kills := if o.open_pids ≠ [] ∧ tries ≤ 1 then
          (o.open_pids.filter (fun p => p ≠ self_pid)).map UmountEvent.kill_pid
        else []
      if tries ≤ 0 then some (.umount_cmd :: kills, false)
      else
        match umountGo self_pid rest (tries - 1) (slp * 2) with
        | none => none
        | some r => some (.umount_cmd :: (kills ++ .sleep_for slp :: r.1), r.2)

/-- `umount(mountpoint)` with the default budget: `tries = 5`, `sleep = 1`. -/
def umount (self_pid : Int) (obs : List UmountObs) :
    Option (List UmountEvent × Bool) :=
  umountGo self_pid obs 5 1

/-- The sleep durations of a trace, in order. -/
def sleeps_of (evs : List UmountEvent) : List Nat :=
  evs.filterMap (fun e => match e with | .sleep_for n => some n | _ => none)

/-- Kill events carry no sleeps. -/
theorem sleeps_of_kills (l : List Int) :
    sleeps_of (l.map UmountEvent.kill_pid) = [] := by
  induction l <;> simp_all [sleeps_of]

/-- `umount` never sends SIGKILL to the calling process itself. -/
theorem umountGo_no_self_kill (self_pid : Int) :
    ∀ (obs : List UmountObs) (tries : Int) (slp : Nat)
      (evs : List UmountEvent) (b : Bool),
      umountGo self_pid obs tries slp = some (evs, b) →
      UmountEvent.kill_pid self_pid ∉ evs := by
  intro obs
  induction obs with
  | nil => intro _ _ _ _ h; simp [umountGo] at h
  | cons o rest ih =>
    intro tries slp evs b h
    unfold umountGo at h
    split_ifs at h with hm hu hc ht ht
    · simp only [Option.some.injEq, Prod.mk.injEq] at h
      rw [← h.1]
      simp
    · simp only [Option.some.injEq, Prod.mk.injEq] at h
      rw [← h.1]
      simp
    · simp only [Option.some.injEq, Prod.mk.injEq] at h
      rw [← h.1]
      intro hmem
      rcases List.mem_cons.mp hmem with h1 | h1
      · simp at h1
      · rcases List.mem_map.mp h1 with ⟨p, hp, hpe⟩
        have hps : p = self_pid := by injection hpe
        rcases List.mem_filter.mp hp with ⟨_, hne⟩
        simp [hps] at hne
    · cases hr : umountGo self_pid rest (tries - 1) (slp * 2) with
      | none => rw [hr] at h; simp at h
      | some r =>
        rw [hr] at h
        simp only [Option.some.injEq, Prod.mk.injEq] at h
        rw [← h.1]
        intro hmem
        rcases List.mem_cons.mp hmem with h1 | h1
        · simp at h1
        · rcases List.mem_append.mp h1 with h2 | h2
          · rcases List.mem_map.mp h2 with ⟨p, hp, hpe⟩
            have hps : p = self_pid := by injection hpe
            rcases List.mem_filter.mp hp with ⟨_, hne⟩
            simp [hps] at hne
          · rcases List.mem_cons.mp h2 with h3 | h3
            · simp at h3
            · exact ih (tries - 1) (slp * 2) r.1 r.2 (by simpa using hr) h3
    · simp only [Option.some.injEq, Prod.mk.injEq] at h
      rw [← h.1]
      simp
    · cases hr : umountGo self_pid rest (tries - 1) (slp * 2) with
      | none => rw [hr] at h; simp at h
      | some r =>
        rw [hr] at h
        simp only [Option.some.injEq, Prod.mk.injEq] at h
        rw [← h.1]
        intro hmem
        rcases List.mem_cons.mp hmem with h1 | h1
        · simp at h1
        · simp only [List.nil_append] at h1
          rcases List.mem_cons.mp h1 with h3 | h3
          · simp at h3
          · exact ih (tries - 1) (slp * 2) r.1 r.2 (by simpa using hr) h3

/-- The sleeps of any run double from the starting duration. -/
theorem umountGo_sleeps_double (self_pid : Int) :
    ∀ (obs : List UmountObs) (tries : Int) (slp : Nat)
      (evs : List UmountEvent) (b : Bool),
      umountGo self_pid obs tries slp = some (evs, b) →
      ∃ k, sleeps_of evs = (List.range k).map (fun i => slp * 2 ^ i) := by
  intro obs
  induction obs with
  | nil => intro _ _ _ _ h; simp [umountGo] at h
  | cons o rest ih =>
    intro tries slp evs b h
    unfold umountGo at h
    split_ifs at h with hm hu hc ht ht
    · simp only [Option.some.injEq, Prod.mk.injEq] at h
      exact ⟨0, by simp [← h.1, sleeps_of]⟩
    · simp only [Option.some.injEq, Prod.mk.injEq] at h
      exact ⟨0, by simp [← h.1, sleeps_of]⟩
    · simp only [Option.some.injEq, Prod.mk.injEq] at h
      refine ⟨0, ?_⟩
      rw [← h.1]
      simp [sleeps_of, sleeps_of_kills]
    · cases hr : umountGo self_pid rest (tries - 1) (slp * 2) with
      | none => rw [hr] at h; simp at h
      | some r =>
        rw [hr] at h
        simp only [Option.some.injEq, Prod.mk.injEq] at h
        obtain ⟨k, hk⟩ := ih (tries - 1) (slp * 2) r.1 r.2 (by simpa using hr)
        refine ⟨k + 1, ?_⟩
        rw [← h.1]
        have hsl : sleeps_of (UmountEvent.umount_cmd ::
            ((o.open_pids.filter (fun p => p ≠ self_pid)).map UmountEvent.kill_pid
              ++ UmountEvent.sleep_for slp :: r.1)) = slp :: sleeps_of r.1 := by
          simp [sleeps_of, List.filterMap_append]
        rw [hsl, hk, List.range_succ_eq_map]
        simp only [List.map_cons, List.map_map, pow_zero, Nat.mul_one]
        congr 1
        apply List.map_congr_left
        intro i _
        simp only [Function.comp_apply, pow_succ]
        ring
    · simp only [Option.some.injEq, Prod.mk.injEq] at h
      exact ⟨0, by simp [← h.1, sleeps_of]⟩
    · cases hr : umountGo self_pid rest (tries - 1) (slp * 2) with
      | none => rw [hr] at h; simp at h
      | some r =>
        rw [hr] at h
        simp only [Option.some.injEq, Prod.mk.injEq] at h
        obtain ⟨k, hk⟩ := ih (tries - 1) (slp * 2) r.1 r.2 (by simpa using hr)
        refine ⟨k + 1, ?_⟩
        rw [← h.1]
        have hsl : sleeps_of (UmountEvent.umount_cmd ::
            ([] ++ UmountEvent.sleep_for slp :: r.1)) = slp :: sleeps_of r.1 := by
          simp [sleeps_of]
        rw [hsl, hk, List.range_succ_eq_map]
        simp only [List.map_cons, List.map_map, pow_zero, Nat.mul_one]
        congr 1
        apply List.map_congr_left
        intro i _
        simp only [Function.comp_apply, pow_succ]
        ring


/-- A run out of budget on an unmountable, busy mountpoint propagates the
failure. -/
theorem umountGo_exhaust (self_pid : Int) :
    ∀ (obs : List UmountObs) (tries : Int) (slp : Nat),
      (∀ o ∈ obs, o.mounted = true ∧ o.umount_ok = false) →
      tries.toNat + 1 ≤ obs.length →
      ∃ evs, umountGo self_pid obs tries slp = some (evs, false) := by
  intro obs
  induction obs with
  | nil => intro tries slp _ hlen; simp at hlen
  | cons o rest ih =>
    intro tries slp hall hlen
    obtain ⟨hm, hu⟩ := hall o (by simp)
    by_cases ht : tries ≤ 0
    · unfold umountGo
      simp [hm, hu, ht]
    · have hrec := ih (tries - 1) (slp * 2)
        (fun o' ho' => hall o' (by simp [ho']))
        (by simp at hlen; omega)
      obtain ⟨evs, hevs⟩ := hrec
      unfold umountGo
      simp [hm, hu, ht, hevs]


/-- Unfolding equation for one loop iteration. -/
theorem umountGo_cons (self_pid : Int) (o : UmountObs) (rest : List UmountObs)
    (tries : Int) (slp : Nat) :
    umountGo self_pid (o :: rest) tries slp =
      if o.mounted = false then some ([], true)
      else if o.umount_ok then some ([.umount_cmd], true)
      else
        let kills := if o.open_pids ≠ [] ∧ tries ≤ 1 then
            (o.open_pids.filter (fun p => p ≠ self_pid)).map UmountEvent.kill_pid
          else []
        if tries ≤ 0 then some (.umount_cmd :: kills, false)
        else
          match umountGo self_pid rest (tries - 1) (slp * 2) with
          | none => none
          | some r => some (.umount_cmd :: (kills ++ .sleep_for slp :: r.1), r.2) := rfl

/-- **C10**: `umount` returns without running the external unmount command
when the target is not mounted; a failed unmount within the budget is
retried after a sleep that doubles each round (the sleep durations of any
run are `slp, 2*slp, 4*slp, ...`); on its final tries (`tries <= 1`, and
only then) with processes holding files open it SIGKILLs every such
process except the current one before retrying; and when the budget is
exhausted the command failure propagates. -/
theorem umount_retry_behaviour :
    ∀ (self_pid : Int) (o : UmountObs) (rest obs : List UmountObs)
      (tries : Int) (slp : Nat),
      (o.mounted = false →
        umountGo self_pid (o :: rest) tries slp = some ([], true)) ∧
      (∀ evs b, umountGo self_pid obs tries slp = some (evs, b) →
        UmountEvent.kill_pid self_pid ∉ evs) ∧
      (∀ evs b, umountGo self_pid obs tries slp = some (evs, b) →
        ∃ k, sleeps_of evs = (List.range k).map (fun i => slp * 2 ^ i)) ∧
      (o.mounted = true → o.umount_ok = false → o.open_pids ≠ [] → tries ≤ 1 →
        ¬ tries ≤ 0 →
        umountGo self_pid (o :: rest) tries slp =
          (umountGo self_pid rest (tries - 1) (slp * 2)).map
            (fun r => (.umount_cmd ::
              (((o.open_pids.filter (fun p => p ≠ self_pid)).map
                UmountEvent.kill_pid) ++ .sleep_for slp :: r.1), r.2))) ∧
      (o.mounted = true → o.umount_ok = false → 2 ≤ tries →
        umountGo self_pid (o :: rest) tries slp =
          (umountGo self_pid rest (tries - 1) (slp * 2)).map
            (fun r => (.umount_cmd :: .sleep_for slp :: r.1, r.2))) ∧
      ((∀ o' ∈ obs, o'.mounted = true ∧ o'.umount_ok = false) →
        tries.toNat + 1 ≤ obs.length →
        ∃ evs, umountGo self_pid obs tries slp = some (evs, false)) := by
  intro self_pid o rest obs tries slp
  refine ⟨?_, umountGo_no_self_kill self_pid obs tries slp,
    umountGo_sleeps_double self_pid obs tries slp, ?_, ?_,
    umountGo_exhaust self_pid obs tries slp⟩
  · intro hm
    unfold umountGo
    simp [hm]
  · intro hm hu hpids htle hnz
    rw [umountGo_cons]
    simp only [hm, Bool.true_eq_false, if_false, hu, Bool.false_eq_true, hnz,
      hpids, htle, and_self, ne_eq, not_false_eq_true, if_true]
    cases hr : umountGo self_pid rest (tries - 1) (slp * 2) <;> simp [hr]
  · intro hm hu ht2
    rw [umountGo_cons]
    have h1 : ¬ (o.open_pids ≠ [] ∧ tries ≤ 1) := by
      intro hc
      omega
    have h2 : ¬ tries ≤ 0 := by omega
    simp only [hm, Bool.true_eq_false, if_false, hu, Bool.false_eq_true, h1,
      h2, if_true, if_false]
    cases hr : umountGo self_pid rest (tries - 1) (slp * 2) <;> simp [hr, h1]

end ZfsInstaller
